import Mathlib

/-!
Verification of the window-synchronized PCB automation engine (`pcbnew_do.py`).

The definitions below are a shallow embedding of the functions of the source
file: `restore_pcb`/`memorize_pcb` become transitions on an explicit
file-system state, `parse_drc` becomes a fold over the report lines with the
two version-specific record grammars implemented as executable matchers,
`process_drc_out` becomes an integer function, and the `__main__` retry loop
and dispatch become functions of the attempt outcomes.
-/

/-- Modelled from the spec: the numeric value of `PCBNEW_ERROR` lives in
`kiauto.misc`, which is outside the repository sources; the spec only
requires it to be a non-zero exit code.  The source uses this one constant
both for the startup-failure exit and for the fatal error-dialog exit. -/
def PCBNEW_ERROR : Int := 4

/-- Modelled from the spec: the numeric value of `KICAD_VERSION_5_99` lives in
`kiauto.misc`, outside the repository sources; it is the threshold separating
the two supported tool major variants. -/
def KICAD_VERSION_5_99 : Nat := 5099

/-- Metadata of one file on disk, as observed by `restore_pcb` and
`memorize_pcb` (`os.path.getmtime`, `os.path.getsize`); `content` is an
abstract identity so that replacing a file is visible in the state. -/
structure FileInfo where
  mtime : Int
  size : Int
  content : Nat
deriving DecidableEq, Repr

/-- The two file-system locations touched by the design-file snapshot logic:
the input PCB file and its `-bak` sibling.  `none` means the file does not
exist. -/
structure FS where
  pcb : Option FileInfo
  bak : Option FileInfo
deriving DecidableEq, Repr

/-- The fields of `cfg` read by `restore_pcb`: truthiness of
`cfg.input_file`, the recorded `cfg.pcb_size` and `cfg.pcb_date` (the source
guards them with `>= 0`, the unrecorded sentinel being negative), and whether
`cfg.kicad_version >= KICAD_VERSION_5_99`. -/
structure PcbCfg where
  has_input_file : Bool
  pcb_size : Int
  pcb_date : Int
  v599 : Bool
deriving DecidableEq, Repr

/-- Embedding of `restore_pcb` (pcbnew_do.py lines 531-549).  Returns `none`
when `os.path.getmtime(cfg.input_file)` would raise (input file absent while
the snapshot is recorded); otherwise the resulting file-system state. -/
def restore_pcb (c : PcbCfg) (s : FS) : Option FS :=
  if c.has_input_file = true ∧ 0 ≤ c.pcb_size ∧ 0 ≤ c.pcb_date then
    match s.pcb with
    | none => none
    | some f =>
      let s1 : FS :=
        if f.mtime ≠ c.pcb_date then
          match s.bak with
          | some b =>
            if b.size = c.pcb_size then { pcb := some b, bak := none } else s
          | none => s
        else s
      some (if c.v599 = true ∧ s1.bak.isSome = true then { s1 with bak := none } else s1)
  else some s

/-- Embedding of `memorize_pcb` (pcbnew_do.py lines 552-560): records the
current size and mtime of the input file and, for KiCad >= 5.99, creates the
backup itself via `shutil.copy2` (which preserves metadata).  `none` when the
input file does not exist. -/
def memorize_pcb (v599 : Bool) (s : FS) : Option (PcbCfg × FS) :=
  match s.pcb with
  | none => none
  | some f =>
      some (⟨true, f.size, f.mtime, v599⟩,
            if v599 then { s with bak := some f } else s)

/-- Embedding of the bounded start loop `for retry in range(3)` of
`__main__` (pcbnew_do.py lines 821-843): `f i` tells whether the target
process started successfully on attempt `i` (its main window appeared before
the process exited).  Returns the number of attempts actually run and the
final value of `do_retry`. -/
def retry_loop (f : Nat → Bool) : Nat → Nat → Nat × Bool
  | 0, made => (made, true)
  | n + 1, made => if f made then (made + 1, false) else retry_loop f n (made + 1)

/-- The observable actions of the engine that the claims talk about. -/
inductive EngineAction
  | newDisplay
  | spawnProcess
  | refillZones
  | writeDrcReport
  | renameToBackup
  | saveBoard
deriving DecidableEq, Repr

/-- The action trace of the start loop: every attempt runs the full
`recorded_xvfb` (new virtual display) plus `PopenContext` (new process)
sequence (pcbnew_do.py lines 823-828). -/
def retry_loop_actions (f : Nat → Bool) : Nat → Nat → List EngineAction
  | 0, _ => []
  | n + 1, made =>
      [EngineAction.newDisplay, EngineAction.spawnProcess] ++
        (if f made then [] else retry_loop_actions f n (made + 1))

/-- Final error level of the GUI path of `__main__`: when the loop is
exhausted with `do_retry` still set, the session exits with
`PCBNEW_ERROR` (pcbnew_do.py lines 844-846); otherwise with the level the
workflow computed. -/
def main_error_level (f : Nat → Bool) (workflow_level : Int) : Int :=
  if (retry_loop f 3 0).2 then PCBNEW_ERROR else workflow_level

/-- The outcome of the first `wait_pcbnew` call inside `wait_pcbew_start`:
the main window appeared, the wait timed out, one of the three excluded
dialogs appeared, or the process exited (`subprocess.CalledProcessError`). -/
inductive StartWait
  | mainOk
  | timeout
  | confirmation
  | warning
  | errorDlg
  | procExit
deriving DecidableEq, Repr

/-- Result of `wait_pcbew_start`: either control returns to the caller or
the session exits with a code. -/
inductive StartResult
  | proceed
  | exited (code : Int)
deriving DecidableEq, Repr

/-- Embedding of `wait_pcbew_start` (pcbnew_do.py lines 139-167):
`secondOk` tells whether the retried `wait_pcbnew(5)` after a dismiss
succeeds.  The second component counts the extra (recovery) waits run, which
the source bounds by one. -/
def wait_pcbew_start (first : StartWait) (secondOk : Bool) : StartResult × Nat :=
  match first with
  | StartWait.mainOk => (StartResult.proceed, 0)
  | StartWait.procExit => (StartResult.proceed, 0)
  | StartWait.errorDlg => (StartResult.exited PCBNEW_ERROR, 0)
  | StartWait.confirmation =>
      ((if secondOk then StartResult.proceed else StartResult.exited PCBNEW_ERROR), 1)
  | StartWait.warning =>
      ((if secondOk then StartResult.proceed else StartResult.exited PCBNEW_ERROR), 1)
  | StartWait.timeout =>
      ((if secondOk then StartResult.proceed else StartResult.exited PCBNEW_ERROR), 1)

/-- The three subcommands of the program. -/
inductive Command
  | exportCmd
  | render3d
  | runDrc
deriving DecidableEq, Repr

/-- Embedding of `run_drc_python` (pcbnew_do.py lines 465-476): refill the
zones, write the DRC report through the embedded Python interface, and for
`--save` rename the input to `-bak` and save the board. -/
def run_drc_python_actions (save : Bool) : List EngineAction :=
  [EngineAction.refillZones, EngineAction.writeDrcReport] ++
    (if save then [EngineAction.renameToBackup, EngineAction.saveBoard] else [])

/-- What the top-level dispatch produced: whether the embedded Python path
was taken, the engine actions run, and the final `do_retry` flag. -/
structure DispatchResult where
  used_python : Bool
  actions : List EngineAction
  do_retry : Bool
deriving DecidableEq, Repr

/-- Embedding of the `__main__` dispatch (pcbnew_do.py lines 813-843):
`run_drc` with a tool version at or above the threshold goes through the
embedded Python interface with `do_retry = False`; everything else runs the
GUI start loop. -/
def main_dispatch (cmd : Command) (kver : Nat) (save : Bool) (f : Nat → Bool) :
    DispatchResult :=
  if cmd = Command.runDrc ∧ KICAD_VERSION_5_99 ≤ kver then
    ⟨true, run_drc_python_actions save, false⟩
  else
    ⟨false, retry_loop_actions f 3 0, (retry_loop f 3 0).2⟩

/-- Embedding of `open_print_dialog` (pcbnew_do.py lines 197-215): the key
sequence is sent, the Print dialog is awaited; on a timeout the sequence is
sent exactly once more and awaited again (a second timeout propagates).
Returns how many times the key sequence was sent and whether the dialog was
obtained in the end. -/
def open_print_dialog (firstOk secondOk : Bool) : Nat × Bool :=
  if firstOk then (1, true) else (2, secondOk)

/-- The settle delay at the end of `dismiss_already_running`
(pcbnew_do.py line 113): a literal `sleep(5)`, not multiplied by the
timing-scale factor. -/
def dismiss_already_running_delays (_scale : ℚ) : List ℚ := [5]

/-- The delays of `print_layers` outside its window waits (pcbnew_do.py
line 267): when `--fill_zones` is given, a literal `sleep(1)` after sending
the fill key, not multiplied by the timing-scale factor. -/
def print_layers_delays (fill_zones : Bool) (_scale : ℚ) : List ℚ :=
  if fill_zones then [1] else []

/-- The poll delays of `_wait_for_pcbnew_idle` (pcbnew_do.py lines 330-331):
`sleep(0.5)` on each of the up to `2*timeout` iterations, not multiplied by
the timing-scale factor.  The actual loop may return early; `iters` is the
number of iterations that ran. -/
def pcbnew_idle_delays (iters : Nat) (_scale : ℚ) : List ℚ :=
  List.replicate iters (1 / 2)

/-- The delays of `open_3d_view` (pcbnew_do.py lines 221-241): five
`sleep(1*cfg.time_out_scale)` calls, each multiplied by the timing-scale
factor. -/
def open_3d_view_delays (scale : ℚ) : List ℚ :=
  [1 * scale, 1 * scale, 1 * scale, 1 * scale, 1 * scale]

/-- The settle delay of `run_drc_6_0` (pcbnew_do.py line 440):
`sleep(12*cfg.time_out_scale)`, multiplied by the timing-scale factor. -/
def run_drc_6_0_delays (scale : ℚ) : List ℚ := [12 * scale]

/-- Embedding of `process_drc_out` (pcbnew_do.py lines 644-662) on the
counts it combines: the parsed totals, the counts elided by the filters
(`apply_filters` lives in `kiauto.file_util`, outside the sources, so its
results are taken as inputs), and the `--ignore_unconnected` flag. -/
def process_drc_out (drc_errors unconnected_pads skip_err skip_unc : Int)
    (ignore_unconnected : Bool) : Int :=
  let e := drc_errors - skip_err
  let u := unconnected_pads - skip_unc
  if e = 0 ∧ u = 0 then 0
  else -(e + (if ignore_unconnected then 0 else u))

/-- Python's `\S` test (negated) for the characters of a report line. -/
def pySpace (c : Char) : Bool :=
  c = ' ' ∨ c = '\t' ∨ c = '\n' ∨ c = '\r' ∨ c = '\x0b' ∨ c = '\x0c'

/-- The character class `[0-9]`. -/
def isDigitChar (c : Char) : Bool := '0' ≤ c ∧ c ≤ '9'

/-- Greedy `[0-9]+`-style munch: the maximal digit run and the remainder. -/
def takeDigits : List Char → List Char × List Char
  | [] => ([], [])
  | c :: r =>
      if isDigitChar c then
        let p := takeDigits r
        (c :: p.1, p.2)
      else ([], c :: r)

/-- Strips an exact literal from the front of a line, or fails. -/
def dropLit : List Char → List Char → Option (List Char)
  | [], l => some l
  | _ :: _, [] => none
  | p :: ps, c :: cs => if c = p then dropLit ps cs else none

/-- Value of a digit run, as Python's `int` computes it. -/
def digitsToNat (ds : List Char) : Nat :=
  ds.foldl (fun a c => 10 * a + (c.toNat - 48)) 0

/-- The errors header of the report: the regular expression
`\*\* Found ([0-9]+) DRC (errors|violations) \*\*` anchored at both ends
(pcbnew_do.py line 69).  Returns the announced count. -/
def matchFoundErrors (l : List Char) : Option Nat :=
  match dropLit "** Found ".toList l with
  | none => none
  | some r =>
      let p := takeDigits r
      if p.1 = [] then none
      else if p.2 = " DRC errors **".toList ∨ p.2 = " DRC violations **".toList then
        some (digitsToNat p.1)
      else none

/-- The unconnected-pads header of the report: the regular expression
`\*\* Found ([0-9]+) unconnected pads \*\*` anchored at both ends
(pcbnew_do.py line 74). -/
def matchFoundUnconnected (l : List Char) : Option Nat :=
  match dropLit "** Found ".toList l with
  | none => none
  | some r =>
      let p := takeDigits r
      if p.1 = [] then none
      else if p.2 = " unconnected pads **".toList then some (digitsToNat p.1)
      else none

/-- The terminal marker `\*\* End of Report \*\*` (pcbnew_do.py line 80). -/
def isEndOfReport (l : List Char) : Bool := l = "** End of Report **".toList

/-- Greedy backtracking match of `(\S+)\]: (.*)` against the tail of a line:
extend the `\S+` group first and only close it where `]: ` follows. -/
def matchCodeV6 : List Char → Option (List Char × List Char)
  | [] => none
  | c :: rest =>
      if pySpace c then none
      else
        match matchCodeV6 rest with
        | some (g, r) => some (c :: g, r)
        | none =>
            match rest with
            | ']' :: ':' :: ' ' :: r => some ([c], r)
            | _ => none

/-- The KiCad >= 5.99 record grammar `^\[(\S+)\]: (.*)`
(pcbnew_do.py line 65): the code group and the message group. -/
def errMatchV6 (l : List Char) : Option (List Char × List Char) :=
  match l with
  | '[' :: rest => matchCodeV6 rest
  | _ => none

/-- The KiCad 5.1 record grammar `^ErrType\((\d+)\): (.*)`
(pcbnew_do.py line 67). -/
def errMatchV5 (l : List Char) : Option (List Char × List Char) :=
  match dropLit "ErrType(".toList l with
  | none => none
  | some r =>
      let p := takeDigits r
      if p.1 = [] then none
      else
        match p.2 with
        | ')' :: ':' :: ' ' :: rest => some (p.1, rest)
        | _ => none

/-- The record grammar selected from the tool version (pcbnew_do.py
lines 64-67). -/
def errMatch (v6 : Bool) (l : List Char) : Option (List Char × List Char) :=
  if v6 then errMatchV6 l else errMatchV5 l

/-- The record text `'({}) {}'.format(code, message)` (pcbnew_do.py
lines 86 and 94). -/
def formatRecord (g : List Char × List Char) : List Char :=
  '(' :: (g.1 ++ (')' :: ' ' :: g.2))

/-- `xs.append(xs.pop() + '\n' + line)`: the continuation line is merged
into the last record with an embedded newline (pcbnew_do.py lines 89
and 97). -/
def appendToLast : List (List Char) → List Char → List (List Char)
  | [], _ => []
  | [x], l => [x ++ ('\n' :: l)]
  | x :: y :: r, l => x :: appendToLast (y :: r) l

/-- The mutable state of the `parse_drc` loop (pcbnew_do.py lines 60-63 and
the `cfg.errs`/`cfg.wrns` record lists, which start empty for the session).
The counts are stored as numbers since the captured groups are digit runs
and the source applies `int` to them on return. -/
structure DrcParseState where
  drc_errors : Option Nat
  unconnected_pads : Option Nat
  in_errs : Bool
  in_wrns : Bool
  errs : List (List Char)
  wrns : List (List Char)
deriving DecidableEq, Repr

/-- The state before any report line is processed. -/
def drcInitState : DrcParseState := ⟨none, none, false, false, [], []⟩

/-- One iteration of the `parse_drc` line loop (pcbnew_do.py lines 68-98),
including the fall-through from the `in_errs` block to the `in_wrns` block
when neither a record match nor a continuation merge fires.  The Boolean is
the `break` on the end-of-report marker. -/
def parse_drc_step (v6 : Bool) (st : DrcParseState) (line : List Char) :
    DrcParseState × Bool :=
  match matchFoundErrors line with
  | some n => ({ st with drc_errors := some n, in_errs := true }, false)
  | none =>
  match matchFoundUnconnected line with
  | some n =>
      ({ st with unconnected_pads := some n, in_errs := false, in_wrns := true }, false)
  | none =>
  if isEndOfReport line then (st, true)
  else
    let afterErrs : Option DrcParseState :=
      if st.in_errs then
        match errMatch v6 line with
        | some g => some { st with errs := st.errs ++ [formatRecord g] }
        | none =>
            if 4 < line.length ∧ st.errs ≠ [] then
              some { st with errs := appendToLast st.errs line }
            else none
      else none
    match afterErrs with
    | some s => (s, false)
    | none =>
        if st.in_wrns then
          match errMatch v6 line with
          | some g => ({ st with wrns := st.wrns ++ [formatRecord g] }, false)
          | none =>
              if 4 < line.length ∧ st.wrns ≠ [] then
                ({ st with wrns := appendToLast st.wrns line }, false)
              else (st, false)
        else (st, false)

/-- Runs the `parse_drc` loop over the report lines, honouring the `break`. -/
def parse_drc_run (v6 : Bool) : DrcParseState → List (List Char) → DrcParseState
  | st, [] => st
  | st, l :: ls =>
      let p := parse_drc_step v6 st l
      if p.2 then p.1 else parse_drc_run v6 p.1 ls

/-- Embedding of `parse_drc` (pcbnew_do.py lines 57-100): the final
`return int(drc_errors), int(unconnected_pads)` raises when either header
was never seen (`int` applied to `None`), modelled as `none`. -/
def parse_drc (v6 : Bool) (lines : List (List Char)) : Option (Nat × Nat) :=
  let st := parse_drc_run v6 drcInitState lines
  match st.drc_errors, st.unconnected_pads with
  | some e, some u => some (e, u)
  | _, _ => none

/-- The pseudo-layer name grammar `^Inner\.([0-9]+)$` of
`create_pcbnew_config` (pcbnew_do.py line 570). -/
def parseInnerName (l : List Char) : Option Int :=
  match dropLit "Inner.".toList l with
  | none => none
  | some r =>
      let p := takeDigits r
      if p.1 ≠ [] ∧ p.2 = [] then some (digitsToNat p.1 : Int) else none

/-- Embedding of the `Inner` branch of `create_pcbnew_config`
(pcbnew_do.py lines 569-578): a malformed name or an index `n` with
`n < 1 or n >= layer_cnt - 1` exits with `WRONG_LAYER_NAME` (modelled as
`none`); otherwise the internal copper layer index is used. -/
def check_inner_layer (layer_cnt : Int) (l : List Char) : Option Int :=
  match parseInnerName l with
  | none => none
  | some n => if n < 1 ∨ layer_cnt - 1 ≤ n then none else some n

lemma retry_loop_three (f : Nat → Bool) :
    retry_loop f 3 0 =
      if f 0 then (1, false)
      else if f 1 then (2, false)
      else if f 2 then (3, false)
      else (3, true) := rfl

lemma retry_loop_actions_three (f : Nat → Bool) :
    retry_loop_actions f 3 0 =
      [EngineAction.newDisplay, EngineAction.spawnProcess] ++
        (if f 0 then []
         else [EngineAction.newDisplay, EngineAction.spawnProcess] ++
           (if f 1 then []
            else [EngineAction.newDisplay, EngineAction.spawnProcess] ++
              (if f 2 then [] else []))) := rfl

/-- C2: the final DRC verdict of `process_drc_out` is success (level 0) iff
the post-filter error count is 0 and the post-filter unconnected count is 0
or `--ignore_unconnected` is set; otherwise the level is the negative of the
sum of the post-filter error count and the (possibly zeroed) unconnected
count, which is non-zero. -/
theorem process_drc_out_verdict (de up se su : Int) (ig : Bool)
    (he : 0 ≤ de - se) (hu : 0 ≤ up - su) :
    (process_drc_out de up se su ig = 0 ↔
      (de - se = 0 ∧ (up - su = 0 ∨ ig = true))) ∧
    (¬(de - se = 0 ∧ (up - su = 0 ∨ ig = true)) →
      process_drc_out de up se su ig
          = -((de - se) + (if ig then 0 else up - su)) ∧
        process_drc_out de up se su ig ≠ 0) := by
  unfold process_drc_out
  cases ig <;> by_cases h : de - se = 0 ∧ up - su = 0 <;>
    simp only [h, if_true, if_false, if_pos, if_neg, not_false_iff] <;>
    simp_all <;> omega

/-- C2 witness: a run with 3 parsed errors, 1 filtered out, and 1
unconnected pad is a failure. -/
theorem process_drc_out_verdict_witness :
    (0:Int) ≤ 3 - 1 ∧ (0:Int) ≤ 1 - 0 ∧
    (process_drc_out 3 1 1 0 false = 0 ↔
      ((3:Int) - 1 = 0 ∧ ((1:Int) - 0 = 0 ∨ false = true))) :=
  ⟨by norm_num, by norm_num,
   (process_drc_out_verdict 3 1 1 0 false (by norm_num) (by norm_num)).1⟩

/-- C4 counterexample: at timing-scale factor 2 the settle delay of
`dismiss_already_running` is still 5 seconds, not the base delay multiplied
by the factor — so not every delay is scaled by the timing-scale knob. -/
theorem dismiss_delay_not_scaled :
    dismiss_already_running_delays 2 = [5] ∧
    dismiss_already_running_delays 2
      ≠ (dismiss_already_running_delays 1).map (fun x => x * 2) := by
  constructor
  · rfl
  · simp [dismiss_already_running_delays]

/-- C4 amended: the delays of `open_3d_view` and the settle delay of
`run_drc_6_0` are multiplied by the session's timing-scale factor, but the
`dismiss_already_running` settle delay (5 s), the `print_layers` fill settle
delay (1 s) and the `_wait_for_pcbnew_idle` poll delay (0.5 s) are fixed,
independent of the factor. -/
theorem delay_scaling (s : ℚ) (fill_zones : Bool) (iters : Nat) :
    open_3d_view_delays s = (open_3d_view_delays 1).map (fun x => x * s) ∧
    run_drc_6_0_delays s = (run_drc_6_0_delays 1).map (fun x => x * s) ∧
    dismiss_already_running_delays s = [5] ∧
    print_layers_delays fill_zones s = (if fill_zones then [1] else []) ∧
    pcbnew_idle_delays iters s = List.replicate iters (1 / 2) := by
  refine ⟨?_, ?_, rfl, rfl, rfl⟩ <;>
    simp [open_3d_view_delays, run_drc_6_0_delays]

/-- C6: an `Inner.N` pseudo-layer name is accepted exactly when
`1 ≤ N ≤ layer_cnt - 2` (and malformed `Inner` names are rejected, since
`parseInnerName` then yields nothing); on a 4-copper-layer board `Inner.1`
is accepted and `Inner.3` is rejected with the unknown-layer exit. -/
theorem inner_layer_validation (layer_cnt : Int) (l : List Char) :
    ((check_inner_layer layer_cnt l).isSome = true ↔
      ∃ n, parseInnerName l = some n ∧ 1 ≤ n ∧ n ≤ layer_cnt - 2) ∧
    check_inner_layer 4 "Inner.1".toList = some 1 ∧
    check_inner_layer 4 "Inner.3".toList = none := by
  refine ⟨?_, by decide, by decide⟩
  unfold check_inner_layer
  cases h : parseInnerName l with
  | none => simp
  | some n =>
      simp only [h, Option.some.injEq]
      split_ifs with hc
      · simp only [Option.isSome_none, Bool.false_eq_true, false_iff]
        rintro ⟨m, hm, h1, h2⟩
        cases hm
        omega
      · simp only [Option.isSome_some, true_iff]
        exact ⟨n, rfl, by omega, by omega⟩

/-- C8: `open_print_dialog` sends the key sequence once, and exactly once
more when the Print dialog did not appear in time — never a third time; a
failed retry propagates the failure.  The other two bounded silent-retry
cases of the engine are likewise bounded: the start loop makes at most 3
attempts and `wait_pcbew_start` runs at most one recovery wait. -/
theorem open_print_dialog_single_retry (firstOk secondOk s2 : Bool)
    (f : Nat → Bool) (o : StartWait) :
    (open_print_dialog firstOk secondOk).1 = (if firstOk then 1 else 2) ∧
    (open_print_dialog firstOk secondOk).1 ≤ 2 ∧
    (open_print_dialog true secondOk).2 = true ∧
    (open_print_dialog false secondOk).2 = secondOk ∧
    (retry_loop f 3 0).1 ≤ 3 ∧
    (wait_pcbew_start o s2).2 ≤ 1 := by
  refine ⟨?_, ?_, rfl, rfl, ?_, ?_⟩
  · cases firstOk <;> rfl
  · cases firstOk <;> simp [open_print_dialog]
  · rw [retry_loop_three]
    split_ifs <;> norm_num
  · cases o <;> simp [wait_pcbew_start]

/-- C3 counterexample: when every attempt fails the session does make 3
attempts, but the exit code it then uses, `PCBNEW_ERROR`, is the very code
`wait_pcbew_start` exits with on a fatal target-reported error dialog — the
source uses the same constant at both sites, so the two codes are not
distinct. -/
theorem startup_code_equals_target_error_code :
    (retry_loop (fun _ => false) 3 0).1 = 3 ∧
    main_error_level (fun _ => false) 0 = PCBNEW_ERROR ∧
    wait_pcbew_start StartWait.errorDlg false
      = (StartResult.exited PCBNEW_ERROR, 0) := by
  refine ⟨rfl, rfl, rfl⟩

/-- C3 amended: when the target fails to start on every attempt, exactly 3
full start attempts are made, each re-running the complete new-virtual-
display plus new-process sequence, and the session exits with the non-zero
code `PCBNEW_ERROR` — which is the same exit code, not a distinct one, that
a fatal target-reported error dialog produces. -/
theorem startup_retry_behavior (f : Nat → Bool) (w : Int)
    (h : ∀ i, f i = false) :
    (retry_loop f 3 0).1 = 3 ∧ (retry_loop f 3 0).2 = true ∧
    retry_loop_actions f 3 0 =
      [EngineAction.newDisplay, EngineAction.spawnProcess,
       EngineAction.newDisplay, EngineAction.spawnProcess,
       EngineAction.newDisplay, EngineAction.spawnProcess] ∧
    main_error_level f w = PCBNEW_ERROR ∧ PCBNEW_ERROR ≠ 0 ∧
    (wait_pcbew_start StartWait.errorDlg false).1
      = StartResult.exited PCBNEW_ERROR := by
  rw [main_error_level, retry_loop_three, retry_loop_actions_three, h 0, h 1, h 2]
  refine ⟨rfl, rfl, rfl, rfl, by norm_num [PCBNEW_ERROR], rfl⟩

/-- C3 witness: the all-attempts-fail behavior instantiated. -/
theorem startup_retry_behavior_witness :
    (retry_loop (fun _ => false) 3 0).1 = 3 ∧
    (retry_loop (fun _ => false) 3 0).2 = true ∧
    retry_loop_actions (fun _ => false) 3 0 =
      [EngineAction.newDisplay, EngineAction.spawnProcess,
       EngineAction.newDisplay, EngineAction.spawnProcess,
       EngineAction.newDisplay, EngineAction.spawnProcess] ∧
    main_error_level (fun _ => false) 0 = PCBNEW_ERROR ∧ PCBNEW_ERROR ≠ 0 ∧
    (wait_pcbew_start StartWait.errorDlg false).1
      = StartResult.exited PCBNEW_ERROR :=
  startup_retry_behavior (fun _ => false) 0 (fun _ => rfl)

/-- C10: `run_drc` with a tool version at or above the 5.99 threshold goes
through the embedded Python interface — zone refill, then writing the DRC
report, plus an optional save with backup — and no GUI process is spawned,
no virtual display is created and the start-retry loop is never entered. -/
theorem run_drc_python_dispatch (kver : Nat) (save : Bool) (f : Nat → Bool)
    (h : KICAD_VERSION_5_99 ≤ kver) :
    (main_dispatch Command.runDrc kver save f).used_python = true ∧
    (main_dispatch Command.runDrc kver save f).actions
      = [EngineAction.refillZones, EngineAction.writeDrcReport] ++
        (if save then [EngineAction.renameToBackup, EngineAction.saveBoard]
         else []) ∧
    EngineAction.newDisplay ∉ (main_dispatch Command.runDrc kver save f).actions ∧
    EngineAction.spawnProcess ∉ (main_dispatch Command.runDrc kver save f).actions ∧
    (main_dispatch Command.runDrc kver save f).do_retry = false := by
  have hd : main_dispatch Command.runDrc kver save f
      = ⟨true, run_drc_python_actions save, false⟩ := by
    rw [main_dispatch, if_pos ⟨rfl, h⟩]
  rw [hd, run_drc_python_actions]
  cases save <;> simp

/-- C10 witness: a `run_drc --save` session exactly at the version
threshold. -/
theorem run_drc_python_dispatch_witness :
    (main_dispatch Command.runDrc 5099 true (fun _ => true)).used_python = true ∧
    (main_dispatch Command.runDrc 5099 true (fun _ => true)).actions
      = [EngineAction.refillZones, EngineAction.writeDrcReport] ++
        (if true then [EngineAction.renameToBackup, EngineAction.saveBoard]
         else []) ∧
    EngineAction.newDisplay
      ∉ (main_dispatch Command.runDrc 5099 true (fun _ => true)).actions ∧
    EngineAction.spawnProcess
      ∉ (main_dispatch Command.runDrc 5099 true (fun _ => true)).actions ∧
    (main_dispatch Command.runDrc 5099 true (fun _ => true)).do_retry = false :=
  run_drc_python_dispatch 5099 true (fun _ => true) (by norm_num [KICAD_VERSION_5_99])

lemma restore_pcb_unrecorded (c : PcbCfg) (s : FS)
    (hr : ¬(c.has_input_file = true ∧ 0 ≤ c.pcb_size ∧ 0 ≤ c.pcb_date)) :
    restore_pcb c s = some s := by
  rw [restore_pcb, if_neg hr]

lemma restore_pcb_same_date (c : PcbCfg) (s : FS) (f : FileInfo)
    (hrec : c.has_input_file = true ∧ 0 ≤ c.pcb_size ∧ 0 ≤ c.pcb_date)
    (hpcb : s.pcb = some f) (hd : f.mtime = c.pcb_date) :
    restore_pcb c s
      = some (if c.v599 = true ∧ s.bak.isSome = true then ⟨s.pcb, none⟩ else s) := by
  rw [restore_pcb, if_pos hrec, hpcb]
  simp only [hd, ne_eq, not_true_eq_false, if_neg, ite_false, not_not]
  cases hb : s.bak <;> simp [hb, hpcb]

lemma restore_pcb_swap (c : PcbCfg) (s : FS) (f b : FileInfo)
    (hrec : c.has_input_file = true ∧ 0 ≤ c.pcb_size ∧ 0 ≤ c.pcb_date)
    (hpcb : s.pcb = some f) (hd : f.mtime ≠ c.pcb_date)
    (hb : s.bak = some b) (hsz : b.size = c.pcb_size) :
    restore_pcb c s = some ⟨some b, none⟩ := by
  rw [restore_pcb, if_pos hrec, hpcb]
  simp only [hb, hd, ne_eq, not_false_eq_true, if_pos, ite_true, hsz]
  simp

lemma restore_pcb_nobak (c : PcbCfg) (s : FS) (f : FileInfo)
    (hrec : c.has_input_file = true ∧ 0 ≤ c.pcb_size ∧ 0 ≤ c.pcb_date)
    (hpcb : s.pcb = some f) (hd : f.mtime ≠ c.pcb_date) (hb : s.bak = none) :
    restore_pcb c s = some s := by
  rw [restore_pcb, if_pos hrec, hpcb]
  simp only [hb, hd, ne_eq, not_false_eq_true, if_pos, ite_true]
  simp [hb]

lemma restore_pcb_badbak (c : PcbCfg) (s : FS) (f b : FileInfo)
    (hrec : c.has_input_file = true ∧ 0 ≤ c.pcb_size ∧ 0 ≤ c.pcb_date)
    (hpcb : s.pcb = some f) (hd : f.mtime ≠ c.pcb_date)
    (hb : s.bak = some b) (hsz : b.size ≠ c.pcb_size) :
    restore_pcb c s = some (if c.v599 = true then ⟨s.pcb, none⟩ else s) := by
  rw [restore_pcb, if_pos hrec, hpcb]
  simp only [hb, hd, ne_eq, not_false_eq_true, if_pos, ite_true, hsz, if_neg]
  cases hv : c.v599 <;> simp [hv, hb, hpcb]

lemma restore_pcb_no_input (c : PcbCfg) (s : FS)
    (hrec : c.has_input_file = true ∧ 0 ≤ c.pcb_size ∧ 0 ≤ c.pcb_date)
    (hpcb : s.pcb = none) : restore_pcb c s = none := by
  rw [restore_pcb, if_pos hrec, hpcb]

/-- C1 counterexample: newer tool version, recorded snapshot (size 10,
date 5), modified design file (mtime 6) and a backup of the wrong size (7):
`restore_pcb` reports corruption yet the final clean-up deletes the backup,
so data is deleted in the corruption case for the newer version. -/
theorem restore_pcb_corruption_deletes_backup :
    ((⟨some ⟨6, 10, 0⟩, some ⟨5, 7, 1⟩⟩ : FS)).bak ≠ none ∧
    (⟨5, 7, 1⟩ : FileInfo).size ≠ (⟨true, 10, 5, true⟩ : PcbCfg).pcb_size ∧
    restore_pcb ⟨true, 10, 5, true⟩ ⟨some ⟨6, 10, 0⟩, some ⟨5, 7, 1⟩⟩
      = some ⟨some ⟨6, 10, 0⟩, none⟩ := by
  refine ⟨by simp, by norm_num, by decide⟩

/-- C1 amended: for every session with a recorded snapshot, `restore_pcb`
leaves the design file untouched when its mtime equals the recorded one
(removing at most a leftover backup); replaces it with the backup and
consumes the backup when the mtime changed and a backup of exactly the
recorded size exists; and in the corruption case (backup missing or of the
wrong size) never touches the design file and deletes nothing for tool
versions below 5.99 — but for versions at or above 5.99 the final backup
clean-up deletes the mismatched backup. -/
theorem restore_pcb_cases (c : PcbCfg) (s : FS) (f : FileInfo)
    (hrec : c.has_input_file = true ∧ 0 ≤ c.pcb_size ∧ 0 ≤ c.pcb_date)
    (hpcb : s.pcb = some f) :
    (f.mtime = c.pcb_date →
      restore_pcb c s
        = some (if c.v599 = true ∧ s.bak.isSome = true then ⟨s.pcb, none⟩ else s)) ∧
    (∀ b, f.mtime ≠ c.pcb_date → s.bak = some b → b.size = c.pcb_size →
      restore_pcb c s = some ⟨some b, none⟩) ∧
    (f.mtime ≠ c.pcb_date → s.bak = none → restore_pcb c s = some s) ∧
    (∀ b, f.mtime ≠ c.pcb_date → s.bak = some b → b.size ≠ c.pcb_size →
      restore_pcb c s = some (if c.v599 = true then ⟨s.pcb, none⟩ else s)) :=
  ⟨fun hd => restore_pcb_same_date c s f hrec hpcb hd,
   fun b hd hb hsz => restore_pcb_swap c s f b hrec hpcb hd hb hsz,
   fun hd hb => restore_pcb_nobak c s f hrec hpcb hd hb,
   fun b hd hb hsz => restore_pcb_badbak c s f b hrec hpcb hd hb hsz⟩

/-- C1 witness: an unmodified design file under the older tool version is
left fully untouched. -/
theorem restore_pcb_cases_witness :
    restore_pcb ⟨true, 10, 5, false⟩ ⟨some ⟨5, 10, 0⟩, none⟩
      = some ⟨some ⟨5, 10, 0⟩, none⟩ := by
  have h := (restore_pcb_cases ⟨true, 10, 5, false⟩ ⟨some ⟨5, 10, 0⟩, none⟩
    ⟨5, 10, 0⟩ ⟨rfl, by norm_num, by norm_num⟩ rfl).1 rfl
  simpa using h

/-- C7: `restore_pcb` is idempotent — rerunning it on the state it produced
changes nothing — and when the design file was never modified (or when
size/date were never recorded, the guard failing) it changes nothing except
possibly removing a leftover backup file. -/
theorem restore_pcb_idempotent (c : PcbCfg) (s t : FS)
    (h : restore_pcb c s = some t) :
    restore_pcb c t = some t ∧
    ((∃ f, s.pcb = some f ∧ f.mtime = c.pcb_date) ∨
        ¬(c.has_input_file = true ∧ 0 ≤ c.pcb_size ∧ 0 ≤ c.pcb_date) →
      t = s ∨ t = ⟨s.pcb, none⟩) := by
  by_cases hr : c.has_input_file = true ∧ 0 ≤ c.pcb_size ∧ 0 ≤ c.pcb_date
  · cases hp : s.pcb with
    | none =>
        rw [restore_pcb_no_input c s hr hp] at h
        exact absurd h (by simp)
    | some f =>
        by_cases hd : f.mtime = c.pcb_date
        · rw [restore_pcb_same_date c s f hr hp hd] at h
          have ht := Option.some.inj h
          by_cases hv : c.v599 = true ∧ s.bak.isSome = true
          · rw [if_pos hv] at ht
            subst ht
            constructor
            · have h2 := restore_pcb_same_date c ⟨s.pcb, none⟩ f hr hp hd
              simpa using h2
            · intro _
              right
              rw [hp]
          · rw [if_neg hv] at ht
            subst ht
            constructor
            · rw [restore_pcb_same_date c s f hr hp hd, if_neg hv]
            · intro _
              left
              rfl
        · cases hb : s.bak with
          | none =>
              rw [restore_pcb_nobak c s f hr hp hd hb] at h
              have ht := Option.some.inj h
              subst ht
              refine ⟨restore_pcb_nobak c s f hr hp hd hb, ?_⟩
              rintro (⟨g, hg, hgd⟩ | hnr)
              · have hfg := Option.some.inj hg
                subst hfg
                exact absurd hgd hd
              · exact absurd hr hnr
          | some b =>
              by_cases hbs : b.size = c.pcb_size
              · rw [restore_pcb_swap c s f b hr hp hd hb hbs] at h
                have ht := Option.some.inj h
                subst ht
                constructor
                · by_cases hd2 : b.mtime = c.pcb_date
                  · have h2 := restore_pcb_same_date c ⟨some b, none⟩ b hr rfl hd2
                    simpa using h2
                  · exact restore_pcb_nobak c ⟨some b, none⟩ b hr rfl hd2 rfl
                · rintro (⟨g, hg, hgd⟩ | hnr)
                  · have hfg := Option.some.inj hg
                    subst hfg
                    exact absurd hgd hd
                  · exact absurd hr hnr
              · rw [restore_pcb_badbak c s f b hr hp hd hb hbs] at h
                have ht := Option.some.inj h
                by_cases hv : c.v599 = true
                · rw [if_pos hv] at ht
                  subst ht
                  constructor
                  · exact restore_pcb_nobak c ⟨s.pcb, none⟩ f hr hp hd rfl
                  · rintro (⟨g, hg, hgd⟩ | hnr)
                    · have hfg := Option.some.inj hg
                      subst hfg
                      exact absurd hgd hd
                    · exact absurd hr hnr
                · rw [if_neg hv] at ht
                  subst ht
                  constructor
                  · rw [restore_pcb_badbak c s f b hr hp hd hb hbs, if_neg hv]
                  · rintro (⟨g, hg, hgd⟩ | hnr)
                    · have hfg := Option.some.inj hg
                      subst hfg
                      exact absurd hgd hd
                    · exact absurd hr hnr
  · rw [restore_pcb_unrecorded c s hr] at h
    have ht := Option.some.inj h
    subst ht
    exact ⟨restore_pcb_unrecorded c s hr, fun _ => Or.inl rfl⟩

/-- C7 witness: restoring an unmodified file with a leftover backup under
the newer version removes only the backup, and rerunning is a no-op. -/
theorem restore_pcb_idempotent_witness :
    restore_pcb ⟨true, 10, 5, true⟩ ⟨some ⟨5, 10, 7⟩, none⟩
        = some ⟨some ⟨5, 10, 7⟩, none⟩ ∧
    ((∃ f, (⟨some ⟨5, 10, 7⟩, some ⟨5, 10, 8⟩⟩ : FS).pcb = some f ∧
          f.mtime = (⟨true, 10, 5, true⟩ : PcbCfg).pcb_date) ∨
        ¬((⟨true, 10, 5, true⟩ : PcbCfg).has_input_file = true ∧
          0 ≤ (⟨true, 10, 5, true⟩ : PcbCfg).pcb_size ∧
          0 ≤ (⟨true, 10, 5, true⟩ : PcbCfg).pcb_date) →
      (⟨some ⟨5, 10, 7⟩, none⟩ : FS) = ⟨some ⟨5, 10, 7⟩, some ⟨5, 10, 8⟩⟩ ∨
      (⟨some ⟨5, 10, 7⟩, none⟩ : FS)
        = ⟨(⟨some ⟨5, 10, 7⟩, some ⟨5, 10, 8⟩⟩ : FS).pcb, none⟩) :=
  restore_pcb_idempotent ⟨true, 10, 5, true⟩ ⟨some ⟨5, 10, 7⟩, some ⟨5, 10, 8⟩⟩
    ⟨some ⟨5, 10, 7⟩, none⟩ (by decide)

/-- C5: inside the errors (resp. warnings) section, a line that is no
header, no end marker and no record: when longer than 4 characters and a
record already exists in that section it is merged into the most recent
record with a newline separator; when 4 characters or shorter it is ignored
and no record is modified. -/
theorem continuation_line_merging (v6 : Bool) (st : DrcParseState)
    (line : List Char)
    (h1 : matchFoundErrors line = none)
    (h2 : matchFoundUnconnected line = none)
    (h3 : isEndOfReport line = false)
    (h4 : errMatch v6 line = none) :
    (st.in_errs = true → 4 < line.length → st.errs ≠ [] →
      parse_drc_step v6 st line
        = ({ st with errs := appendToLast st.errs line }, false)) ∧
    (st.in_errs = false → st.in_wrns = true → 4 < line.length → st.wrns ≠ [] →
      parse_drc_step v6 st line
        = ({ st with wrns := appendToLast st.wrns line }, false)) ∧
    (line.length ≤ 4 → parse_drc_step v6 st line = (st, false)) := by
  rw [parse_drc_step, h1, h2]
  simp only [h3, Bool.false_eq_true, if_false]
  refine ⟨?_, ?_, ?_⟩
  · intro he hlen hne
    rw [he]
    simp only [if_true, h4, if_pos (And.intro hlen hne)]
  · intro he hw hlen hne
    rw [he, hw]
    simp only [Bool.false_eq_true, if_false, if_true, h4,
      if_pos (And.intro hlen hne)]
  · intro hlen
    have hnl : ¬(4 < line.length) := by omega
    cases he : st.in_errs <;> cases hw : st.in_wrns <;>
      simp [h4, hnl]

/-- C5 witness: a 5-character non-record line after one parsed error record
is merged into that record with a newline. -/
theorem continuation_line_merging_witness :
    parse_drc_step true ⟨none, none, true, false, ["(a) b".toList], []⟩
        "hello".toList
      = (⟨none, none, true, false,
          appendToLast ["(a) b".toList] "hello".toList, []⟩, false) :=
  (continuation_line_merging true ⟨none, none, true, false, ["(a) b".toList], []⟩
      "hello".toList (by decide) (by decide) (by decide) (by decide)).1
    rfl (by decide) (by decide)

lemma parse_drc_step_drc_errors (v6 : Bool) (st : DrcParseState)
    (line : List Char) (h : matchFoundErrors line = none) :
    ((parse_drc_step v6 st line).1).drc_errors = st.drc_errors := by
  rw [parse_drc_step, h]
  cases h2 : matchFoundUnconnected line with
  | some n => rfl
  | none =>
      by_cases hend : isEndOfReport line = true
      · simp [hend]
      · simp only [Bool.not_eq_true] at hend
        simp only [hend, Bool.false_eq_true, if_false]
        cases he : st.in_errs <;> cases hw : st.in_wrns <;>
          cases hm : errMatch v6 line <;>
          simp [hm] <;> split_ifs <;> rfl

lemma parse_drc_step_unconnected (v6 : Bool) (st : DrcParseState)
    (line : List Char) (h : matchFoundUnconnected line = none) :
    ((parse_drc_step v6 st line).1).unconnected_pads = st.unconnected_pads := by
  rw [parse_drc_step]
  cases h1 : matchFoundErrors line with
  | some n => rfl
  | none =>
      rw [h]
      by_cases hend : isEndOfReport line = true
      · simp [hend]
      · simp only [Bool.not_eq_true] at hend
        simp only [hend, Bool.false_eq_true, if_false]
        cases he : st.in_errs <;> cases hw : st.in_wrns <;>
          cases hm : errMatch v6 line <;>
          simp [hm] <;> split_ifs <;> rfl

lemma parse_drc_run_drc_errors (v6 : Bool) (lines : List (List Char)) :
    ∀ st : DrcParseState, (∀ l ∈ lines, matchFoundErrors l = none) →
      (parse_drc_run v6 st lines).drc_errors = st.drc_errors := by
  induction lines with
  | nil => intro st _; rfl
  | cons l ls ih =>
      intro st hall
      rw [parse_drc_run]
      have hstep := parse_drc_step_drc_errors v6 st l (hall l (by simp))
      by_cases hb : (parse_drc_step v6 st l).2 = true
      · simp only [hb, if_true]
        exact hstep
      · simp only [Bool.not_eq_true] at hb
        simp only [hb, Bool.false_eq_true, if_false]
        rw [ih (parse_drc_step v6 st l).1 (fun x hx => hall x (by simp [hx]))]
        exact hstep

lemma parse_drc_run_unconnected (v6 : Bool) (lines : List (List Char)) :
    ∀ st : DrcParseState, (∀ l ∈ lines, matchFoundUnconnected l = none) →
      (parse_drc_run v6 st lines).unconnected_pads = st.unconnected_pads := by
  induction lines with
  | nil => intro st _; rfl
  | cons l ls ih =>
      intro st hall
      rw [parse_drc_run]
      have hstep := parse_drc_step_unconnected v6 st l (hall l (by simp))
      by_cases hb : (parse_drc_step v6 st l).2 = true
      · simp only [hb, if_true]
        exact hstep
      · simp only [Bool.not_eq_true] at hb
        simp only [hb, Bool.false_eq_true, if_false]
        rw [ih (parse_drc_step v6 st l).1 (fun x hx => hall x (by simp [hx]))]
        exact hstep

/-- C9: when either announcement header (the DRC errors/violations header
or the unconnected-pads header) matches no line of the report, `parse_drc`
fails (the source applies `int` to `None`) instead of returning counts —
equivalently, a returned pair implies both headers occur in the report. -/
theorem parse_drc_missing_header (v6 : Bool) (lines : List (List Char))
    (h : (∀ l ∈ lines, matchFoundErrors l = none) ∨
         (∀ l ∈ lines, matchFoundUnconnected l = none)) :
    parse_drc v6 lines = none := by
  rw [parse_drc]
  rcases h with h | h
  · have he : (parse_drc_run v6 drcInitState lines).drc_errors = none :=
      parse_drc_run_drc_errors v6 lines drcInitState h
    rw [he]
  · have hu : (parse_drc_run v6 drcInitState lines).unconnected_pads = none :=
      parse_drc_run_unconnected v6 lines drcInitState h
    rw [hu]
    cases (parse_drc_run v6 drcInitState lines).drc_errors <;> rfl

/-- C9 witness: a report with an unconnected-pads header but no errors
header makes `parse_drc` fail. -/
theorem parse_drc_missing_header_witness :
    parse_drc true
        ["hello".toList, "** Found 3 unconnected pads **".toList] = none :=
  parse_drc_missing_header true
    ["hello".toList, "** Found 3 unconnected pads **".toList]
    (Or.inl (by decide))
